import Mathlib

/-!
Shallow embedding of `homeassistant/components/broadlink/cover.py`.

The file models the per-axis travel estimator (`_subCover`) and the
aggregating entity (`BroadlinkCover`) as pure Lean functions over explicit
state.  Wall-clock times and speeds are rationals; positions are integers
(the source only ever stores rounded integer positions).  The external
scheduler is modelled as an explicit set of live timer subscriptions with
fresh numeric ids, so that registration/cancellation behaviour is visible.
The transport (`_async_send_packet`) is modelled with an explicit
`cover_debug` flag mirroring the source's `COVER_DEBUG` constant and a
boolean oracle for the outcome of the device request; sends attempted on
the device are recorded in an output list.
-/

namespace Broadlink

/-- Python's built-in `round` on a rational: round half to even. -/
def pyRound (q : ℚ) : ℤ :=
  let f : ℤ := ⌊q⌋
  if q - f < 1/2 then f
  else if 1/2 < q - f then f + 1
  else if Even f then f else f + 1

/-- Constant `POSITION_MIN = 0` from the source. -/
def POSITION_MIN : ℤ := 0

/-- Constant `POSITION_MAX = 100` from the source. -/
def POSITION_MAX : ℤ := 100

/-- Cover status constant `COVER_CLOSED = 1`. -/
def COVER_CLOSED : ℕ := 1

/-- Cover status constant `COVER_CLOSING = 2`. -/
def COVER_CLOSING : ℕ := 2

/-- Cover status constant `COVER_OPENED = 3`. -/
def COVER_OPENED : ℕ := 3

/-- Cover status constant `COVER_OPENING = 4`. -/
def COVER_OPENING : ℕ := 4

/-- Home Assistant cover feature flag `SUPPORT_OPEN`. -/
def SUPPORT_OPEN : ℕ := 1

/-- Home Assistant cover feature flag `SUPPORT_CLOSE`. -/
def SUPPORT_CLOSE : ℕ := 2

/-- Home Assistant cover feature flag `SUPPORT_SET_POSITION`. -/
def SUPPORT_SET_POSITION : ℕ := 4

/-- Home Assistant cover feature flag `SUPPORT_STOP`. -/
def SUPPORT_STOP : ℕ := 8

/-- Home Assistant cover feature flag `SUPPORT_OPEN_TILT`. -/
def SUPPORT_OPEN_TILT : ℕ := 16

/-- Home Assistant cover feature flag `SUPPORT_CLOSE_TILT`. -/
def SUPPORT_CLOSE_TILT : ℕ := 32

/-- Home Assistant cover feature flag `SUPPORT_STOP_TILT`. -/
def SUPPORT_STOP_TILT : ℕ := 64

/-- Home Assistant cover feature flag `SUPPORT_SET_TILT_POSITION`. -/
def SUPPORT_SET_TILT_POSITION : ℕ := 128

/-- Command payloads are abstract; we identify them by a natural number. -/
abbrev Packet := ℕ

/-- A live timer registration handed out by the scheduler: either a
point-in-time callback (`async_track_point_in_utc_time`) or a periodic
interval callback (`async_track_time_interval`). -/
inductive TimerKind where
  | pointInTime : ℚ → TimerKind
  | interval : ℚ → TimerKind
deriving DecidableEq, Repr

/-- The external scheduler: a fresh-id counter and the list of live
subscriptions.  Registering returns the unsubscribe handle (the id);
calling the handle removes the subscription (idempotent). -/
structure Sched where
  next_id : ℕ
  live : List (ℕ × TimerKind)
deriving DecidableEq, Repr

/-- Scheduler with no live subscriptions. -/
def Sched.empty : Sched := ⟨0, []⟩

/-- Cancel subscription `i` (a no-op when `i` is not live). -/
def Sched.cancel (sch : Sched) (i : ℕ) : Sched :=
  { sch with live := sch.live.filter (fun p => p.1 ≠ i) }

/-- Register a new subscription, returning its unsubscribe handle. -/
def Sched.register (sch : Sched) (k : TimerKind) : ℕ × Sched :=
  (sch.next_id, ⟨sch.next_id + 1, (sch.next_id, k) :: sch.live⟩)

/-- Per-axis configuration of `_subCover.__init__`: the three optional
command payloads, the two travel times (seconds) and the tilt flag (the
tilt flag only selects which service-call keyword argument carries the
target position, which we pass directly). -/
structure SubConfig where
  command_open : Option Packet
  command_close : Option Packet
  command_stop : Option Packet
  opening_time : ℚ
  closing_time : ℚ
  is_tilt : Bool
deriving DecidableEq, Repr

/-- `self._opening_speed` as computed in `_subCover.__init__`. -/
def opening_speed (c : SubConfig) : ℚ :=
  if c.opening_time > 0 then (POSITION_MAX : ℚ) / c.opening_time
  else (POSITION_MAX : ℚ)

/-- `self._closing_speed` as computed in `_subCover.__init__`. -/
def closing_speed (c : SubConfig) : ℚ :=
  if c.closing_time > 0 then (-(POSITION_MAX : ℚ)) / c.closing_time
  else (-(POSITION_MAX : ℚ))

/-- Mutable state of one `_subCover` axis.  `closed_flag` models the
`self._closed` attribute first created inside `_update_position` (it is
never read by the source); `position_dead` models the `self.position`
attribute created by `restore_position` (also never read — the source
meant `self._position`). -/
structure SubState where
  status : Option ℕ
  position : Option ℤ
  position_set : Option ℤ
  position_start : Option ℤ
  unsub_tracking_interval_listener : Option ℕ
  unsub_travel_duration_listener : Option ℕ
  travel_time_start : Option ℚ
  travel_time_stop : Option ℚ
  speed : Option ℚ
  closed_flag : Option Bool
  position_dead : Option ℤ
deriving DecidableEq, Repr

/-- The state right after `_subCover.__init__`: everything unknown. -/
def freshSub : SubState :=
  { status := none
    position := none
    position_set := none
    position_start := none
    unsub_tracking_interval_listener := none
    unsub_travel_duration_listener := none
    travel_time_start := none
    travel_time_stop := none
    speed := none
    closed_flag := none
    position_dead := none }

/-- Result of one axis operation: the new axis state, the new scheduler
state, the device requests attempted by the transport, and whether the
operation published a state update (`async_write_ha_state`). -/
structure OpResult where
  state : SubState
  sched : Sched
  sends : List Packet
  published : Bool
deriving DecidableEq, Repr

/-- `_subCover._async_send_packet`: a `none` payload succeeds without
touching the device; with `cover_debug` set (the source freezes
`COVER_DEBUG = True`) every send is faked as successful without touching
the device; otherwise the device request is attempted and the boolean
oracle `ok` tells whether it raised.  Returns the success flag and the
list of attempted device requests. -/
def async_send_packet (cover_debug : Bool) (packet : Option Packet) (ok : Bool) :
    Bool × List Packet :=
  match packet with
  | none => (true, [])
  | some p => if cover_debug then (true, []) else (ok, [p])

/-- `_subCover._update_position`: recompute the position estimate from
elapsed travel time; a no-op when `position_start` or `travel_time_start`
is absent.  (When those are present the source has always assigned
`self._speed`; on a `none` speed the Python would raise, so that branch
is unreachable and left as a no-op.) -/
def update_position (now : ℚ) (s : SubState) : SubState :=
  match s.position_start, s.travel_time_start with
  | some ps, some ts =>
    match s.speed with
    | some v =>
      let travel_pos : ℤ := pyRound ((now - ts) * v)
      let position : ℤ := ps + travel_pos
      let newpos : ℤ := max POSITION_MIN (min position POSITION_MAX)
      { s with position := some newpos
               closed_flag := some (decide (newpos ≤ POSITION_MIN)) }
    | none => s
  | _, _ => s

/-- `_subCover._listeners_stop`: cancels the interval listener when
present, and only then (nested inside that branch) the travel-duration
listener; returns whether the interval listener was present. -/
def listeners_stop (s : SubState) (sch : Sched) : Bool × SubState × Sched :=
  match s.unsub_tracking_interval_listener with
  | some i =>
    let sch1 := sch.cancel i
    let s1 := { s with unsub_tracking_interval_listener := none }
    match s1.unsub_travel_duration_listener with
    | some j =>
      (true, { s1 with unsub_travel_duration_listener := none }, sch1.cancel j)
    | none => (true, s1, sch1)
  | none => (false, s, sch)

/-- `_subCover._listeners_start`: reconcile any previous traverse, derive
the speed from the commanded direction, compute the start position and
travel duration (full configured time when the position is unknown),
record the travel bounds, register the end-of-travel timer always and the
1-second interval timer only when the travel duration exceeds 2 seconds.
(`self._position_set` is always assigned by the caller before this runs;
on a `none` target the Python would raise, so we read it with default 0.) -/
def listeners_start (c : SubConfig) (now : ℚ) (s : SubState) (sch : Sched) :
    SubState × Sched :=
  let r0 := listeners_stop s sch
  let s1 := if r0.1 then update_position now r0.2.1 else r0.2.1
  let sch1 := r0.2.2
  let speed : ℚ :=
    if s1.status = some COVER_CLOSING then closing_speed c else opening_speed c
  let pstart : ℤ :=
    match s1.position with
    | none => if s1.status = some COVER_CLOSING then POSITION_MAX else POSITION_MIN
    | some p => p
  let travel_duration : ℚ :=
    match s1.position with
    | none => if s1.status = some COVER_CLOSING then c.closing_time else c.opening_time
    | some p => |(((s1.position_set.getD 0 - p : ℤ) : ℚ) / speed)|
  let s2 := { s1 with speed := some speed
                      position_start := some pstart
                      travel_time_start := some now
                      travel_time_stop := some (now + travel_duration) }
  let reg := sch1.register (TimerKind.pointInTime (now + travel_duration))
  let s3 := { s2 with unsub_travel_duration_listener := some reg.1 }
  if travel_duration > 2 then
    let reg2 := reg.2.register (TimerKind.interval 1)
    ({ s3 with unsub_tracking_interval_listener := some reg2.1 }, reg2.2)
  else (s3, reg.2)

/-- `_subCover.async_close_cover`: on transport success mark the axis
closing with target 0 and start the traverse timers; on failure do
nothing. -/
def async_close_cover (c : SubConfig) (cover_debug ok : Bool) (now : ℚ)
    (s : SubState) (sch : Sched) : OpResult :=
  let snd := async_send_packet cover_debug c.command_close ok
  if snd.1 then
    let s1 := { s with status := some COVER_CLOSING, position_set := some POSITION_MIN }
    let r := listeners_start c now s1 sch
    ⟨r.1, r.2, snd.2, true⟩
  else ⟨s, sch, snd.2, false⟩

/-- `_subCover.async_open_cover`: on transport success mark the axis
opening with target 100 and start the traverse timers; on failure do
nothing. -/
def async_open_cover (c : SubConfig) (cover_debug ok : Bool) (now : ℚ)
    (s : SubState) (sch : Sched) : OpResult :=
  let snd := async_send_packet cover_debug c.command_open ok
  if snd.1 then
    let s1 := { s with status := some COVER_OPENING, position_set := some POSITION_MAX }
    let r := listeners_start c now s1 sch
    ⟨r.1, r.2, snd.2, true⟩
  else ⟨s, sch, snd.2, false⟩

/-- `_subCover.async_stop_cover`: on transport success reconcile any
running traverse (updating the position only when `_listeners_stop`
reported a live interval listener), then set the terminal status
(`COVER_CLOSED` iff the position equals 0, else `COVER_OPENED` — also
when the position is still unknown), copy the position into
`position_set` and clear `position_start`. -/
def async_stop_cover (c : SubConfig) (cover_debug ok : Bool) (now : ℚ)
    (s : SubState) (sch : Sched) : OpResult :=
  let snd := async_send_packet cover_debug c.command_stop ok
  if snd.1 then
    let r0 := listeners_stop s sch
    let s1 := if r0.1 then update_position now r0.2.1 else r0.2.1
    let s2 := { s1 with
      status := some (if s1.position = some POSITION_MIN then COVER_CLOSED else COVER_OPENED)
      position_set := s1.position
      position_start := none }
    ⟨s2, r0.2.2, snd.2, true⟩
  else ⟨s, sch, snd.2, false⟩

/-- `_subCover.async_set_cover_position`: clamp the rounded request to
[0,100].  A clamped target of 0 or 100 executes
`return self.async_close_cover()` / `return self.async_open_cover()` in
the source — the inner coroutine is returned without being awaited, and
no caller awaits it, so its body never runs: the branch performs no
action at all.  An unknown or already-reached position publishes the
unchanged state.  Otherwise the target and direction status are assigned,
the matching payload is sent, and only on success are the traverse timers
started. -/
def async_set_cover_position (c : SubConfig) (cover_debug ok : Bool) (now : ℚ)
    (target_raw : ℚ) (s : SubState) (sch : Sched) : OpResult :=
  let position : ℤ := max POSITION_MIN (min (pyRound target_raw) POSITION_MAX)
  if position = POSITION_MIN then
    ⟨s, sch, [], false⟩
  else if position = POSITION_MAX then
    ⟨s, sch, [], false⟩
  else
    match s.position with
    | none => ⟨s, sch, [], true⟩
    | some q =>
      if q = position then ⟨s, sch, [], true⟩
      else
        let s1 := { s with position_set := some position }
        let cmd_st : Option Packet × SubState :=
          if position < q then (c.command_close, { s1 with status := some COVER_CLOSING })
          else (c.command_open, { s1 with status := some COVER_OPENING })
        let snd := async_send_packet cover_debug cmd_st.1 ok
        if snd.1 then
          let r := listeners_start c now cmd_st.2 sch
          ⟨r.1, r.2, snd.2, true⟩
        else ⟨cmd_st.2, sch, snd.2, false⟩

/-- `_subCover.restore_position`: the source assigns `self.position`,
which creates a fresh attribute distinct from the `self._position` field
that every reader uses; the estimator's position is left untouched. -/
def restore_position (p : Option ℤ) (s : SubState) : SubState :=
  { s with position_dead := p }

/-- `_subCover._async_track_cover_position` (the periodic tick handler):
recompute the position and publish. -/
def track_cover_position (now : ℚ) (s : SubState) (sch : Sched) : OpResult :=
  ⟨update_position now s, sch, [], true⟩

/-- `_subCover._async_track_travel_duration` (the end-of-travel handler):
send the stop payload unless the target is exactly 0 or 100 (the send's
success flag is ignored), run `_listeners_stop`, recompute the position,
force the position to an exact 0/100 target, clear `position_start` and
set the terminal status (`COVER_CLOSED` iff position equals 0). -/
def track_travel_duration (c : SubConfig) (cover_debug ok : Bool) (now : ℚ)
    (s : SubState) (sch : Sched) : OpResult :=
  let sends :=
    if s.position_set = some POSITION_MIN ∨ s.position_set = some POSITION_MAX then []
    else (async_send_packet cover_debug c.command_stop ok).2
  let r0 := listeners_stop s sch
  let s1 := update_position now r0.2.1
  let s2 :=
    if s1.position_set = some POSITION_MIN then { s1 with position := some POSITION_MIN }
    else if s1.position_set = some POSITION_MAX then { s1 with position := some POSITION_MAX }
    else s1
  let s3 := { s2 with
    position_start := none
    status := some (if s2.position = some POSITION_MIN then COVER_CLOSED else COVER_OPENED) }
  ⟨s3, r0.2.2, sends, true⟩

/-- Configuration of one `BroadlinkCover` entity: the main-axis and
tilt-axis payloads and travel times. -/
structure CoverConfig where
  command_open : Option Packet
  command_close : Option Packet
  command_stop : Option Packet
  opening_time : ℚ
  closing_time : ℚ
  tilt_command_open : Option Packet
  tilt_command_close : Option Packet
  tilt_command_stop : Option Packet
  tilt_opening_time : ℚ
  tilt_closing_time : ℚ
deriving DecidableEq, Repr

/-- The `_subCover` configuration of the main axis. -/
def main_config (c : CoverConfig) : SubConfig :=
  ⟨c.command_open, c.command_close, c.command_stop, c.opening_time, c.closing_time, false⟩

/-- The `_subCover` configuration of the tilt axis. -/
def tilt_config (c : CoverConfig) : SubConfig :=
  ⟨c.tilt_command_open, c.tilt_command_close, c.tilt_command_stop,
    c.tilt_opening_time, c.tilt_closing_time, true⟩

/-- The main-axis part of `self._supported_features` as accumulated in
`BroadlinkCover.__init__` (before the tilt section runs). -/
def supported_features_main (c : CoverConfig) : ℕ :=
  let f0 : ℕ := 0
  let f1 := if c.command_open.isSome then f0 ||| SUPPORT_OPEN else f0
  let f2 := if c.command_close.isSome then f1 ||| SUPPORT_CLOSE else f1
  let f3 := if c.command_stop.isSome then f2 ||| SUPPORT_STOP else f2
  if c.command_open.isSome ∧ c.command_close.isSome ∧ c.command_stop.isSome ∧
      c.opening_time > 0 ∧ c.closing_time > 0 then
    f3 ||| SUPPORT_SET_POSITION
  else f3

/-- The full `self._supported_features` bitmask after `__init__`. -/
def supported_features (c : CoverConfig) : ℕ :=
  let f3 := supported_features_main c
  let f4 := if c.tilt_command_open.isSome then f3 ||| SUPPORT_OPEN_TILT else f3
  let f5 := if c.tilt_command_close.isSome then f4 ||| SUPPORT_CLOSE_TILT else f4
  let f6 := if c.tilt_command_stop.isSome then f5 ||| SUPPORT_STOP_TILT else f5
  if c.tilt_command_open.isSome ∧ c.tilt_command_close.isSome ∧
      c.tilt_command_stop.isSome ∧ c.tilt_opening_time > 0 ∧ c.tilt_closing_time > 0 then
    f6 ||| SUPPORT_SET_TILT_POSITION
  else f6

/-- `self._main_enable`: the source tests
`self._supported_features | (SUPPORT_OPEN & SUPPORT_CLOSE & SUPPORT_STOP)`;
the bitwise-and of the distinct flag bits is 0, so the test is just the
truthiness of the main-section bitmask.  (Never read afterwards.) -/
def main_enable (c : CoverConfig) : Bool :=
  decide (supported_features_main c ||| (SUPPORT_OPEN &&& SUPPORT_CLOSE &&& SUPPORT_STOP) ≠ 0)

/-- `self._tilt_enable`, analogously over the full bitmask.  (Never read
afterwards.) -/
def tilt_enable (c : CoverConfig) : Bool :=
  decide (supported_features c |||
    (SUPPORT_OPEN_TILT &&& SUPPORT_CLOSE_TILT &&& SUPPORT_STOP_TILT) ≠ 0)

/-- Mutable state of one `BroadlinkCover` entity: the two axis states
plus the three attributes that `_restore_state` writes.  Those attributes
are dead: the entity's `is_opening`/`is_closing`/`is_closed` properties
read the main axis's status, never these fields. -/
structure CoverState where
  is_opening_attr : Option Bool
  is_closing_attr : Option Bool
  is_closed_attr : Option Bool
  main : SubState
  tilt : SubState
deriving DecidableEq, Repr

/-- Entity state right after `BroadlinkCover.__init__`. -/
def freshCover : CoverState :=
  { is_opening_attr := none
    is_closing_attr := none
    is_closed_attr := none
    main := freshSub
    tilt := freshSub }

/-- Property `BroadlinkCover.current_cover_position`: gated on the
`SUPPORT_SET_POSITION` feature bit. -/
def current_cover_position (c : CoverConfig) (s : CoverState) : Option ℤ :=
  if supported_features c &&& SUPPORT_SET_POSITION ≠ 0 then s.main.position else none

/-- Property `BroadlinkCover.current_cover_tilt_position`: gated on the
`SUPPORT_SET_TILT_POSITION` feature bit. -/
def current_cover_tilt_position (c : CoverConfig) (s : CoverState) : Option ℤ :=
  if supported_features c &&& SUPPORT_SET_TILT_POSITION ≠ 0 then s.tilt.position else none

/-- Property `BroadlinkCover.is_closed`, delegating to the main axis. -/
def cover_is_closed (s : CoverState) : Bool := s.main.status = some COVER_CLOSED

/-- Property `BroadlinkCover.is_closing`, delegating to the main axis. -/
def cover_is_closing (s : CoverState) : Bool := s.main.status = some COVER_CLOSING

/-- Property `BroadlinkCover.is_opening`, delegating to the main axis. -/
def cover_is_opening (s : CoverState) : Bool := s.main.status = some COVER_OPENING

/-- `BroadlinkCover._restore_state`: resets the three (dead) flag
attributes and sets the one matching the persisted state label. -/
def restore_state (label : String) (s : CoverState) : CoverState :=
  let s1 := { s with is_opening_attr := some false
                     is_closing_attr := some false
                     is_closed_attr := some false }
  if label = "opening" then { s1 with is_opening_attr := some true }
  else if label = "closing" then { s1 with is_closing_attr := some true }
  else if label = "closed" then { s1 with is_closed_attr := some true }
  else s1

/-- `BroadlinkCover.async_added_to_hass`: when a saved state exists,
run `_restore_state` on its label and, for each axis whose current
position reads as absent, hand the saved position to
`restore_position`.  Registers no timers. -/
def async_added_to_hass (c : CoverConfig)
    (saved : Option (String × Option ℤ × Option ℤ)) (s : CoverState) : CoverState :=
  match saved with
  | none => s
  | some (label, pos, tilt_pos) =>
    let s1 := restore_state label s
    let s2 :=
      if current_cover_position c s1 = none then
        { s1 with main := restore_position pos s1.main }
      else s1
    if current_cover_tilt_position c s2 = none then
      { s2 with tilt := restore_position tilt_pos s2.tilt }
    else s2

/-- Result of one aggregate operation. -/
structure CoverOpResult where
  state : CoverState
  sched : Sched
  sends : List Packet
  published : Bool
deriving DecidableEq, Repr

/-- Lift a main-axis operation result into the aggregate. -/
def liftMain (s : CoverState) (r : OpResult) : CoverOpResult :=
  ⟨{ s with main := r.state }, r.sched, r.sends, r.published⟩

/-- Lift a tilt-axis operation result into the aggregate. -/
def liftTilt (s : CoverState) (r : OpResult) : CoverOpResult :=
  ⟨{ s with tilt := r.state }, r.sched, r.sends, r.published⟩

/-- The no-op result of a capability-gated operation whose flag is
absent: state, scheduler and transport untouched, nothing published,
nothing raised. -/
def noopCover (s : CoverState) (sch : Sched) : CoverOpResult := ⟨s, sch, [], false⟩

/-- `BroadlinkCover.async_open_cover`, gated on `SUPPORT_OPEN`. -/
def cover_open (c : CoverConfig) (cover_debug ok : Bool) (now : ℚ)
    (s : CoverState) (sch : Sched) : CoverOpResult :=
  if supported_features c &&& SUPPORT_OPEN ≠ 0 then
    liftMain s (async_open_cover (main_config c) cover_debug ok now s.main sch)
  else noopCover s sch

/-- `BroadlinkCover.async_close_cover`, gated on `SUPPORT_CLOSE`. -/
def cover_close (c : CoverConfig) (cover_debug ok : Bool) (now : ℚ)
    (s : CoverState) (sch : Sched) : CoverOpResult :=
  if supported_features c &&& SUPPORT_CLOSE ≠ 0 then
    liftMain s (async_close_cover (main_config c) cover_debug ok now s.main sch)
  else noopCover s sch

/-- `BroadlinkCover.async_stop_cover`, gated on `SUPPORT_STOP`. -/
def cover_stop (c : CoverConfig) (cover_debug ok : Bool) (now : ℚ)
    (s : CoverState) (sch : Sched) : CoverOpResult :=
  if supported_features c &&& SUPPORT_STOP ≠ 0 then
    liftMain s (async_stop_cover (main_config c) cover_debug ok now s.main sch)
  else noopCover s sch

/-- `BroadlinkCover.async_set_cover_position`, gated on
`SUPPORT_SET_POSITION`. -/
def cover_set_position (c : CoverConfig) (cover_debug ok : Bool) (now target : ℚ)
    (s : CoverState) (sch : Sched) : CoverOpResult :=
  if supported_features c &&& SUPPORT_SET_POSITION ≠ 0 then
    liftMain s (async_set_cover_position (main_config c) cover_debug ok now target s.main sch)
  else noopCover s sch

/-- `BroadlinkCover.async_open_cover_tilt`, gated on `SUPPORT_OPEN_TILT`. -/
def cover_open_tilt (c : CoverConfig) (cover_debug ok : Bool) (now : ℚ)
    (s : CoverState) (sch : Sched) : CoverOpResult :=
  if supported_features c &&& SUPPORT_OPEN_TILT ≠ 0 then
    liftTilt s (async_open_cover (tilt_config c) cover_debug ok now s.tilt sch)
  else noopCover s sch

/-- `BroadlinkCover.async_close_cover_tilt`, gated on `SUPPORT_CLOSE_TILT`. -/
def cover_close_tilt (c : CoverConfig) (cover_debug ok : Bool) (now : ℚ)
    (s : CoverState) (sch : Sched) : CoverOpResult :=
  if supported_features c &&& SUPPORT_CLOSE_TILT ≠ 0 then
    liftTilt s (async_close_cover (tilt_config c) cover_debug ok now s.tilt sch)
  else noopCover s sch

/-- `BroadlinkCover.async_stop_cover_tilt`, gated on `SUPPORT_STOP_TILT`. -/
def cover_stop_tilt (c : CoverConfig) (cover_debug ok : Bool) (now : ℚ)
    (s : CoverState) (sch : Sched) : CoverOpResult :=
  if supported_features c &&& SUPPORT_STOP_TILT ≠ 0 then
    liftTilt s (async_stop_cover (tilt_config c) cover_debug ok now s.tilt sch)
  else noopCover s sch

/-- `BroadlinkCover.async_set_cover_tilt_position`, gated on
`SUPPORT_SET_TILT_POSITION`. -/
def cover_set_tilt_position (c : CoverConfig) (cover_debug ok : Bool) (now target : ℚ)
    (s : CoverState) (sch : Sched) : CoverOpResult :=
  if supported_features c &&& SUPPORT_SET_TILT_POSITION ≠ 0 then
    liftTilt s (async_set_cover_position (tilt_config c) cover_debug ok now target s.tilt sch)
  else noopCover s sch

/-! ## Helper lemmas -/

/-- Rounding an integer-valued rational is the identity. -/
theorem pyRound_intCast (n : ℤ) : pyRound (n : ℚ) = n := by
  unfold pyRound
  norm_num [Int.floor_intCast]

/-! ## Claim C3 -/

/-- Axis with only an open payload and a 1-second opening time: any
traverse started from an unknown position lasts 1 second, below the
2-second threshold for the interval timer. -/
def c3cfg : SubConfig := ⟨some 1, none, none, 1, 0, false⟩

/-- First `async_open_cover` on the fresh axis (send succeeds). -/
def c3run1 : OpResult := async_open_cover c3cfg false true 0 freshSub Sched.empty

/-- Second `async_open_cover`, one second later. -/
def c3run2 : OpResult := async_open_cover c3cfg false true 1 c3run1.state c3run1.sched

/-- Claim C3 (code bug): after the first open only the end-of-travel
subscription exists (handle present without the interval handle), and the
second open leaves the first traverse's end-of-travel subscription live in
the scheduler while registering a second one — two traverses with live
timers at once.  `_listeners_stop` cancels the travel-duration listener
only inside the branch where the interval listener exists. -/
theorem c3_timer_leak :
    c3run1.state.unsub_travel_duration_listener = some 0
    ∧ c3run1.state.unsub_tracking_interval_listener = none
    ∧ c3run2.sched.live
        = [(1, TimerKind.pointInTime 2), (0, TimerKind.pointInTime 1)]
    ∧ c3run2.state.unsub_travel_duration_listener = some 1 := by
  norm_num [c3run2, c3run1, c3cfg, async_open_cover, async_send_packet,
    listeners_start, listeners_stop, update_position, freshSub, Sched.empty,
    Sched.register, Sched.cancel, opening_speed, closing_speed,
    COVER_OPENING, COVER_CLOSING, POSITION_MIN, POSITION_MAX]

/-! ## Claim C4 -/

/-- Fully configured axis (all payloads, 10 s / 8 s travel times). -/
def c4cfg : SubConfig := ⟨some 1, some 2, some 3, 10, 8, false⟩

/-- `async_stop_cover` on the fresh axis (position unknown), send
succeeding. -/
def c4run : OpResult := async_stop_cover c4cfg false true 0 freshSub Sched.empty

/-- Claim C4 (code bug): stopping while the position is unknown yields
the terminal status `COVER_OPENED` with the position still unknown,
because `async_stop_cover` assigns
`COVER_CLOSED if position == POSITION_MIN else COVER_OPENED` without
handling an absent position. -/
theorem c4_stop_unknown_yields_opened :
    c4run.state.status = some COVER_OPENED
    ∧ c4run.state.position = none
    ∧ c4run.published = true := by
  norm_num [c4run, c4cfg, async_stop_cover, async_send_packet,
    listeners_stop, update_position, freshSub, Sched.empty,
    COVER_CLOSED, COVER_OPENED, POSITION_MIN]
  exact fun h => Option.noConfusion h

/-! ## Claim C5 -/

/-- Fully configured axis for the set-position scenario. -/
def c5cfg : SubConfig := ⟨some 1, some 2, some 3, 10, 10, false⟩

/-- Axis idle at known position 50. -/
def c5state : SubState :=
  { freshSub with position := some 50, status := some COVER_OPENED }

/-- Set-position request with target 0 (send oracle irrelevant: nothing
is ever sent on this path). -/
def c5run : OpResult := async_set_cover_position c5cfg false true 0 0 c5state Sched.empty

/-- Claim C5 (code bug): a clamped target of 0 does not delegate to
`close()` — the source executes `return self.async_close_cover()`, and
the returned coroutine is never awaited, so nothing happens at all: no
packet is sent, no state changes, nothing is published. -/
theorem c5_goto_zero_is_noop :
    c5run.state = c5state
    ∧ c5run.sends = []
    ∧ c5run.published = false
    ∧ c5run.sched = Sched.empty := by
  have h0 : pyRound 0 = 0 := by norm_num [pyRound]
  norm_num [c5run, c5cfg, c5state, async_set_cover_position, h0,
    POSITION_MIN, POSITION_MAX]

/-! ## Claim C7 -/

/-- Cover with a fully configured main axis and no tilt axis. -/
def c7cfg : CoverConfig := ⟨some 1, some 2, some 3, 10, 8, none, none, none, 0, 0⟩

/-- Restoring the persisted label "closing" with saved position 40 on the
freshly constructed entity. -/
def c7run : CoverState :=
  async_added_to_hass c7cfg (some ("closing", some 40, none)) freshCover

/-- Claim C7 (code bug): restoring ("closing", 40) leaves the axis status
unset and the position unknown.  `_restore_state` writes `_is_closing` on
the aggregate, which is shadowed by the `is_closing` property that reads
the axis status, and `restore_position` assigns `self.position` — a fresh
attribute — instead of the `self._position` field every reader uses.  The
restore registers no timers (visible in the model: it never touches a
scheduler). -/
theorem c7_restore_is_dead_write :
    c7run.main.status = none
    ∧ c7run.main.position = none
    ∧ cover_is_closing c7run = false
    ∧ current_cover_position c7cfg c7run = none
    ∧ c7run.main.position_dead = some 40
    ∧ c7run.is_closing_attr = some true
    ∧ c7run.main.unsub_travel_duration_listener = none
    ∧ c7run.main.unsub_tracking_interval_listener = none := by
  have hcl : ("closing" : String) ≠ "opening" := by decide
  norm_num [c7run, c7cfg, async_added_to_hass, restore_state, restore_position,
    current_cover_position, current_cover_tilt_position, cover_is_closing,
    supported_features, supported_features_main, freshCover, freshSub, hcl,
    SUPPORT_OPEN, SUPPORT_CLOSE, SUPPORT_STOP, SUPPORT_SET_POSITION,
    SUPPORT_OPEN_TILT, SUPPORT_CLOSE_TILT, SUPPORT_STOP_TILT,
    SUPPORT_SET_TILT_POSITION, COVER_CLOSING]
  exact fun h => Option.noConfusion h

/-! ## Claim C1 -/

/-- Claim C1: for an in-progress traverse with known start
(`position_start`, `travel_time_start` and the speed set by
`_listeners_start` all present), every position recomputation at time
`now` — the shared `_update_position`, which both the periodic tick
handler and the reconcile path call — sets the position to
`clamp(position_start + round((now - travel_start_time) * speed), 0, 100)`;
hence the recomputed position always lies in [0,100]. -/
theorem c1_recompute_clamps (s : SubState) (sch : Sched) (now ts v : ℚ) (ps : ℤ)
    (h1 : s.position_start = some ps) (h2 : s.travel_time_start = some ts)
    (h3 : s.speed = some v) :
    (update_position now s).position
        = some (max POSITION_MIN (min (ps + pyRound ((now - ts) * v)) POSITION_MAX))
    ∧ (∀ p : ℤ, (update_position now s).position = some p →
        POSITION_MIN ≤ p ∧ p ≤ POSITION_MAX)
    ∧ (track_cover_position now s sch).state = update_position now s := by
  have hup : (update_position now s).position
      = some (max POSITION_MIN (min (ps + pyRound ((now - ts) * v)) POSITION_MAX)) := by
    simp [update_position, h1, h2, h3]
  refine ⟨hup, ?_, rfl⟩
  intro p hp
  rw [hup] at hp
  have hpe := Option.some.inj hp
  rw [← hpe]
  unfold POSITION_MIN POSITION_MAX
  omega

/-- Axis state mid-traverse: started from 50 at time 0 at speed 5/s. -/
def c1state : SubState :=
  { freshSub with position_start := some 50, travel_time_start := some 0,
                  speed := some 5 }

/-- Witness for C1 at the concrete mid-traverse state and `now = 4`. -/
theorem c1_witness :
    (update_position 4 c1state).position
        = some (max POSITION_MIN (min ((50:ℤ) + pyRound ((4 - 0) * 5)) POSITION_MAX))
    ∧ (∀ p : ℤ, (update_position 4 c1state).position = some p →
        POSITION_MIN ≤ p ∧ p ≤ POSITION_MAX)
    ∧ (track_cover_position 4 c1state Sched.empty).state = update_position 4 c1state :=
  c1_recompute_clamps c1state Sched.empty 4 0 5 50 rfl rfl rfl

/-! ## Claim C9 -/

/-- Claim C9: the end-of-travel handler attempts the stop payload on the
transport iff the traverse target is strictly between 0 and 100; for
targets 0 and 100 no stop packet is sent. -/
theorem c9_end_stop_sent_iff (c : SubConfig) (ok : Bool) (now : ℚ)
    (s : SubState) (sch : Sched) (pkt : Packet) (t : ℤ)
    (hstop : c.command_stop = some pkt) (hset : s.position_set = some t)
    (h0 : 0 ≤ t) (h100 : t ≤ 100) :
    ((track_travel_duration c false ok now s sch).sends = [pkt] ↔ 0 < t ∧ t < 100)
    ∧ ((t = 0 ∨ t = 100) → (track_travel_duration c false ok now s sch).sends = []) := by
  have hs : (track_travel_duration c false ok now s sch).sends
      = if s.position_set = some POSITION_MIN ∨ s.position_set = some POSITION_MAX
        then [] else [pkt] := by
    simp [track_travel_duration, async_send_packet, hstop]
  have hcond : (s.position_set = some POSITION_MIN ∨ s.position_set = some POSITION_MAX)
      ↔ (t = 0 ∨ t = 100) := by
    rw [hset]; unfold POSITION_MIN POSITION_MAX; simp
  by_cases h : t = 0 ∨ t = 100
  · rw [hs, if_pos (hcond.mpr h)]
    have hnot : ¬(0 < t ∧ t < 100) := by omega
    constructor
    · simp [hnot]
    · intro _; rfl
  · rw [hs, if_neg (fun hc => h (hcond.mp hc))]
    have hyes : 0 < t ∧ t < 100 := by omega
    exact ⟨by simp [hyes], fun hh => absurd hh h⟩

/-- Sub-cover configuration for the C9 witness: stop payload present. -/
def c9cfg : SubConfig := ⟨some 1, some 2, some 3, 10, 8, false⟩

/-- Axis state whose current traverse targets position 50. -/
def c9state : SubState := { freshSub with position_set := some 50 }

/-- Witness for C9 at target 50 (strictly between the extremes). -/
theorem c9_witness :
    ((track_travel_duration c9cfg false true 5 c9state Sched.empty).sends = [3]
      ↔ (0:ℤ) < 50 ∧ (50:ℤ) < 100)
    ∧ (((50:ℤ) = 0 ∨ (50:ℤ) = 100) →
        (track_travel_duration c9cfg false true 5 c9state Sched.empty).sends = []) :=
  c9_end_stop_sent_iff c9cfg true 5 c9state Sched.empty 3 50 rfl rfl
    (by norm_num) (by norm_num)

/-! ## Claim C10 -/

/-- Claim C10: the aggregate's current-position accessor returns `none`
whenever `SUPPORT_SET_POSITION` is not among the supported features,
regardless of the axis's stored estimate; likewise for the tilt accessor
and `SUPPORT_SET_TILT_POSITION`. -/
theorem c10_position_accessors_gated (c : CoverConfig) (s : CoverState) :
    (supported_features c &&& SUPPORT_SET_POSITION = 0 →
      current_cover_position c s = none)
    ∧ (supported_features c &&& SUPPORT_SET_TILT_POSITION = 0 →
      current_cover_tilt_position c s = none) := by
  constructor <;> intro h <;>
    simp [current_cover_position, current_cover_tilt_position, h]

/-- Cover configured with no payloads at all (no feature bits set). -/
def c10cfg : CoverConfig := ⟨none, none, none, 0, 0, none, none, none, 0, 0⟩

/-- Entity state whose both axes nevertheless hold a position estimate. -/
def c10state : CoverState :=
  { freshCover with main := { freshSub with position := some 40 },
                    tilt := { freshSub with position := some 40 } }

/-- Witness for C10: both axes hold the estimate 40, yet both accessors
read absent because the feature bits are missing. -/
theorem c10_witness :
    (supported_features c10cfg &&& SUPPORT_SET_POSITION = 0
      ∧ c10state.main.position = some 40
      ∧ current_cover_position c10cfg c10state = none)
    ∧ (supported_features c10cfg &&& SUPPORT_SET_TILT_POSITION = 0
      ∧ c10state.tilt.position = some 40
      ∧ current_cover_tilt_position c10cfg c10state = none) := by
  have hf : supported_features c10cfg = 0 := by
    norm_num [supported_features, supported_features_main, c10cfg]
  have h4 : supported_features c10cfg &&& SUPPORT_SET_POSITION = 0 := by
    rw [hf]; rfl
  have h128 : supported_features c10cfg &&& SUPPORT_SET_TILT_POSITION = 0 := by
    rw [hf]; rfl
  exact ⟨⟨h4, rfl, (c10_position_accessors_gated c10cfg c10state).1 h4⟩,
         ⟨h128, rfl, (c10_position_accessors_gated c10cfg c10state).2 h128⟩⟩

/-! ## Claim C8 -/

/-- Cover configured with only a main open payload and a main close
payload: no stop payload, no tilt payloads, all durations zero. -/
def c8cfg (po pc : Packet) : CoverConfig :=
  ⟨some po, some pc, none, 0, 0, none, none, none, 0, 0⟩

/-- Claim C8: with only open/close payloads the derived capabilities are
can-open and can-close only (bitmask `SUPPORT_OPEN ||| SUPPORT_CLOSE`),
and every operation whose flag is absent — stop, set-position, and all
four tilt operations — leaves the state, the scheduler and the transport
untouched and publishes nothing.  The operations are total Lean
functions, so completing without raising is inherent in the model. -/
theorem c8_capability_gating (po pc : Packet) (dbg ok : Bool)
    (now target : ℚ) (s : CoverState) (sch : Sched) :
    supported_features (c8cfg po pc) = SUPPORT_OPEN ||| SUPPORT_CLOSE
    ∧ supported_features (c8cfg po pc) &&& SUPPORT_OPEN ≠ 0
    ∧ supported_features (c8cfg po pc) &&& SUPPORT_CLOSE ≠ 0
    ∧ supported_features (c8cfg po pc) &&& SUPPORT_STOP = 0
    ∧ supported_features (c8cfg po pc) &&& SUPPORT_SET_POSITION = 0
    ∧ cover_stop (c8cfg po pc) dbg ok now s sch = noopCover s sch
    ∧ cover_set_position (c8cfg po pc) dbg ok now target s sch = noopCover s sch
    ∧ cover_open_tilt (c8cfg po pc) dbg ok now s sch = noopCover s sch
    ∧ cover_close_tilt (c8cfg po pc) dbg ok now s sch = noopCover s sch
    ∧ cover_stop_tilt (c8cfg po pc) dbg ok now s sch = noopCover s sch
    ∧ cover_set_tilt_position (c8cfg po pc) dbg ok now target s sch = noopCover s sch := by
  have h12 : (1 : ℕ) ||| 2 = 3 := by decide
  have hsf : supported_features (c8cfg po pc) = 3 := by
    norm_num [supported_features, supported_features_main, c8cfg,
      SUPPORT_OPEN, SUPPORT_CLOSE, h12]
  refine ⟨by rw [hsf]; decide, by rw [hsf]; decide, by rw [hsf]; decide,
    by rw [hsf]; rfl, by rw [hsf]; rfl, ?_, ?_, ?_, ?_, ?_, ?_⟩
  · unfold cover_stop
    rw [if_neg (by rw [hsf]; decide)]
  · unfold cover_set_position
    rw [if_neg (by rw [hsf]; decide)]
  · unfold cover_open_tilt
    rw [if_neg (by rw [hsf]; decide)]
  · unfold cover_close_tilt
    rw [if_neg (by rw [hsf]; decide)]
  · unfold cover_stop_tilt
    rw [if_neg (by rw [hsf]; decide)]
  · unfold cover_set_tilt_position
    rw [if_neg (by rw [hsf]; decide)]

/-! ## Claim C2 -/

/-- Fully configured axis for the transport-failure scenarios. -/
def c2cfg : SubConfig := ⟨some 1, some 2, some 3, 10, 10, false⟩

/-- Axis idle at known position 50 with matching target bookkeeping. -/
def c2state : SubState :=
  { freshSub with position := some 50, status := some COVER_OPENED,
                  position_set := some 50 }

/-- Set-position request to 30 whose close-payload send fails. -/
def c2run : OpResult := async_set_cover_position c2cfg false false 0 30 c2state Sched.empty

/-- Counterexample to claim C2 as stated: a failed send during
set-position still mutates the axis state — `position_set` and `status`
are assigned before the packet is sent, so after the failed send the
status has moved from Opened to Closing and the target from 50 to 30. -/
theorem c2_counterexample :
    c2run.state.status = some COVER_CLOSING
    ∧ c2state.status = some COVER_OPENED
    ∧ c2run.state.position_set = some 30
    ∧ c2state.position_set = some 50
    ∧ c2run.sends = [2]
    ∧ c2run.published = false := by
  have h30 : pyRound 30 = 30 := by norm_num [pyRound]
  norm_num [c2run, c2cfg, c2state, async_set_cover_position, async_send_packet,
    h30, POSITION_MIN, POSITION_MAX, COVER_CLOSING, COVER_OPENED, freshSub]

/-- Claim C2 (amended): for open, close and stop a failed transport send
leaves every field of the axis state unchanged, leaves the scheduler
unchanged, begins no traverse and publishes nothing; for set-position a
failed send likewise begins no traverse, schedules nothing and leaves
`position`, `position_start`, the timer handles, the travel bounds and
the speed unchanged, but `position_set` and `status` have already been
assigned to the clamped target and the travel direction before the send.
All four operations complete without raising (they are total functions
of the model). -/
theorem c2_amended_failure_no_traverse :
    (∀ (c : SubConfig) (now : ℚ) (p : Packet) (s : SubState) (sch : Sched),
      c.command_open = some p →
      async_open_cover c false false now s sch = ⟨s, sch, [p], false⟩)
    ∧ (∀ (c : SubConfig) (now : ℚ) (p : Packet) (s : SubState) (sch : Sched),
      c.command_close = some p →
      async_close_cover c false false now s sch = ⟨s, sch, [p], false⟩)
    ∧ (∀ (c : SubConfig) (now : ℚ) (p : Packet) (s : SubState) (sch : Sched),
      c.command_stop = some p →
      async_stop_cover c false false now s sch = ⟨s, sch, [p], false⟩)
    ∧ (∀ (c : SubConfig) (now target : ℚ) (s : SubState) (sch : Sched)
        (q : ℤ) (po pc : Packet),
      c.command_open = some po → c.command_close = some pc →
      s.position = some q →
      max POSITION_MIN (min (pyRound target) POSITION_MAX) ≠ POSITION_MIN →
      max POSITION_MIN (min (pyRound target) POSITION_MAX) ≠ POSITION_MAX →
      q ≠ max POSITION_MIN (min (pyRound target) POSITION_MAX) →
      async_set_cover_position c false false now target s sch
        = ⟨{ s with
              position_set := some (max POSITION_MIN (min (pyRound target) POSITION_MAX))
              status := some (if max POSITION_MIN (min (pyRound target) POSITION_MAX) < q
                              then COVER_CLOSING else COVER_OPENING) },
            sch,
            [if max POSITION_MIN (min (pyRound target) POSITION_MAX) < q then pc else po],
            false⟩) := by
  refine ⟨?_, ?_, ?_, ?_⟩
  · intro c now p s sch h
    simp [async_open_cover, async_send_packet, h]
  · intro c now p s sch h
    simp [async_close_cover, async_send_packet, h]
  · intro c now p s sch h
    simp [async_stop_cover, async_send_packet, h]
  · intro c now target s sch q po pc ho hc hpos h0 h100 hne
    by_cases hlt : max POSITION_MIN (min (pyRound target) POSITION_MAX) < q
    · simp [async_set_cover_position, async_send_packet, hpos, h0, h100, hne,
        hlt, hc]
    · simp [async_set_cover_position, async_send_packet, hpos, h0, h100, hne,
        hlt, ho]

/-- Witness for the amended C2: each of the four operations at a concrete
failing send. -/
theorem c2_amended_witness :
    async_open_cover c2cfg false false 0 freshSub Sched.empty
        = ⟨freshSub, Sched.empty, [1], false⟩
    ∧ async_close_cover c2cfg false false 0 freshSub Sched.empty
        = ⟨freshSub, Sched.empty, [2], false⟩
    ∧ async_stop_cover c2cfg false false 0 freshSub Sched.empty
        = ⟨freshSub, Sched.empty, [3], false⟩
    ∧ async_set_cover_position c2cfg false false 0 30 c2state Sched.empty
        = ⟨{ c2state with position_set := some 30, status := some COVER_CLOSING },
           Sched.empty, [2], false⟩ := by
  have h30 : pyRound 30 = 30 := by norm_num [pyRound]
  have hM : max POSITION_MIN (min (pyRound 30) POSITION_MAX) = 30 := by
    rw [h30]; decide
  refine ⟨c2_amended_failure_no_traverse.1 c2cfg 0 1 freshSub Sched.empty rfl,
    c2_amended_failure_no_traverse.2.1 c2cfg 0 2 freshSub Sched.empty rfl,
    c2_amended_failure_no_traverse.2.2.1 c2cfg 0 3 freshSub Sched.empty rfl, ?_⟩
  have h := c2_amended_failure_no_traverse.2.2.2 c2cfg 0 30 c2state Sched.empty
    50 1 2 rfl rfl rfl (by rw [hM]; decide) (by rw [hM]; decide) (by rw [hM]; decide)
  rw [h, hM]
  norm_num

/-! ## Claim C6 -/

/-- Axis with an open payload and the given opening time. -/
def c6cfg (pkt : Packet) (ot : ℚ) : SubConfig := ⟨some pkt, none, none, ot, 0, false⟩

/-- Successful `async_open_cover` at time `t0` from known position 0. -/
def c6start (pkt : Packet) (ot t0 : ℚ) : OpResult :=
  async_open_cover (c6cfg pkt ot) false true t0
    { freshSub with position := some 0 } Sched.empty

/-- Claim C6: for any positive opening time (the (0, 300] range of the
configuration schema), the speed is derived as `100 / opening_time`, and
after a traverse toward 100 begins from known position 0, the periodic
position recomputation at elapsed time `opening_time` yields exactly
position 100. -/
theorem c6_full_open_travel (pkt : Packet) (ot t0 : ℚ)
    (h1 : 0 < ot) (_h2 : ot ≤ 300) :
    opening_speed (c6cfg pkt ot) = 100 / ot
    ∧ (track_cover_position (t0 + ot) (c6start pkt ot t0).state
        (c6start pkt ot t0).sched).state.position = some 100 := by
  have hne : ot ≠ 0 := ne_of_gt h1
  have hsp : opening_speed (c6cfg pkt ot) = 100 / ot := by
    norm_num [opening_speed, c6cfg, POSITION_MAX, h1]
  have hfields : (c6start pkt ot t0).state.position_start = some 0
      ∧ (c6start pkt ot t0).state.travel_time_start = some t0
      ∧ (c6start pkt ot t0).state.speed = some (100 / ot) := by
    norm_num [c6start, c6cfg, async_open_cover, async_send_packet,
      listeners_start, listeners_stop, freshSub, opening_speed, closing_speed,
      update_position, apply_ite, COVER_OPENING, COVER_CLOSING,
      POSITION_MIN, POSITION_MAX, h1]
  obtain ⟨hps, hts, hv⟩ := hfields
  refine ⟨hsp, ?_⟩
  have harg : ot * (100 / ot) = 100 := by field_simp
  have h100 : pyRound 100 = 100 := by norm_num [pyRound]
  simp [track_cover_position, update_position, hps, hts, hv, harg, h100,
    POSITION_MIN, POSITION_MAX]

/-- Witness for C6 with a 10-second opening time started at time 0. -/
theorem c6_witness :
    (0:ℚ) < 10 ∧ (10:ℚ) ≤ 300
    ∧ (opening_speed (c6cfg 1 10) = 100 / 10
       ∧ (track_cover_position (0 + 10) (c6start 1 10 0).state
            (c6start 1 10 0).sched).state.position = some 100) :=
  ⟨by norm_num, by norm_num, c6_full_open_travel 1 10 0 (by norm_num) (by norm_num)⟩

end Broadlink
